import Mathlib

/-!
Verification development for the DHALSIM PLC runtime.

Shallow embedding of:
- `src/dhalsim/python2/generic_plc.py` (class `GenericPLC`): tag resolution
  (`get_tag`/`set_tag`), the sync barrier (`get_sync`/`set_sync`), the rule
  construction (`create_controls`/`create_attacks`) and the `main_loop`
  ordering of Control and Attack rules.
- `src/ICS_topologies/enhanced_ctown_topology/plc2.py` (class `PLC2`): the
  bounded-retry main loop, the SIGINT/SIGTERM telemetry-persistence handler,
  and the lock discipline of the broadcast thread.

Machine integers are modelled as `Int`/`Nat`; the `Decimal` values of the
Python code are modelled as `Int` (no claim below depends on the numeric
representation, only on which value flows where). Fallible operations return
`Except`. The local tag store (`self.get`/`self.set` of the underlying
protocol layer) is modelled as a function `String → Int` indexed by tag name
(every tag in the code is `(name, 1)`, so the index is dropped).
-/

/-- A value passed to `set_tag`: the Python call sites pass either a string
(`"open"`/`"closed"`, any case) or a number; `isinstance(value, basestring)`
distinguishes the two. -/
inductive TagValue
  | str (s : String)
  | num (n : Int)
deriving DecidableEq

/-- The two exception classes of `generic_plc.py` (lines 16-25), with the
payload each `raise` site attaches. -/
inductive PlcError
  | tagDoesNotExist (msg : String)
  | invalidControlValue (value : TagValue)
deriving DecidableEq

/-- One entry of the `plcs` section of the intermediate yaml, as read by
`GenericPLC.__init__`: name, sensor list, actuator list, public address. -/
structure PLCDescriptor where
  name : String
  sensors : List String
  actuators : List String
  public_ip : String
deriving Inhabited, DecidableEq

/-- Write of one tag in the local tag store, modelling `self.set((tag, 1), v)`. -/
def plc_set (store : String → Int) (tag : String) (v : Int) : String → Int :=
  fun t => if t = tag then v else store t

/-- Python's `str.lower()` as used on the ASCII tag values and type names of
the yaml configuration. -/
def py_lower (s : String) : String := String.mk (s.data.map Char.toLower)

/-- Shallow embedding of `GenericPLC.set_tag` (generic_plc.py lines 249-268).
The Python first maps a string value through `"closed" ↦ 0`, `"open" ↦ 1`
(case-insensitively) and raises `InvalidControlValue(value)` for every other
value — including every non-string value; only then does it check that the
tag is in this PLC's sensor or actuator list, raising `TagDoesNotExist`
otherwise, and finally performs `self.set((tag, 1), value)`. -/
def set_tag (plc : PLCDescriptor) (store : String → Int) (tag : String)
    (value : TagValue) : Except PlcError (String → Int) :=
  match
    (match value with
     | .str s =>
       if py_lower s = "closed" then some (0 : Int)
       else if py_lower s = "open" then some 1
       else none
     | .num _ => none) with
  | none => .error (.invalidControlValue value)
  | some v =>
    if plc.sensors.contains tag || plc.actuators.contains tag then
      .ok (plc_set store tag v)
    else
      .error (.tagDoesNotExist (tag ++ " cannot be set from " ++ plc.name))

/-- A concrete PLC descriptor used to evaluate the definitions: owns sensor
`"T1"` and actuator `"PMP1"`. -/
def plcA : PLCDescriptor :=
  { name := "PLC1", sensors := ["T1"], actuators := ["PMP1"], public_ip := "10.0.1.1" }

/-- A concrete initial tag store. -/
def store0 : String → Int := fun _ => 0

/-- C1 counterexample: `set_tag` does NOT accept a binary value directly.
For the owned actuator `"PMP1"`, `set_tag plcA store0 "PMP1" (num 1)` raises
`InvalidControlValue 1` instead of storing 1: the claim's binary-value clause
is false on the code. -/
theorem set_tag_rejects_binary_value :
    (¬ ∃ st', set_tag plcA store0 "PMP1" (TagValue.num 1) = Except.ok st' ∧
      st' "PMP1" = 1) ∧
    set_tag plcA store0 "PMP1" (TagValue.num 1) =
      Except.error (PlcError.invalidControlValue (TagValue.num 1)) := by
  refine ⟨?_, rfl⟩
  rintro ⟨st', h, -⟩
  simp [set_tag] at h

/-- C1 (amended): for an actuator tag owned by the PLC, `set_tag` with the
string `"open"` (any case) stores 1, with `"closed"` stores 0, and fails with
`InvalidControlValue` on every other string and on every numeric value,
binary values 0/1 included. -/
theorem set_tag_symbolic_mapping (plc : PLCDescriptor) (store : String → Int)
    (tag : String) (s : String) (hOwn : plc.actuators.contains tag = true) :
    (py_lower s = "open" →
      set_tag plc store tag (.str s) = .ok (plc_set store tag 1) ∧
      (plc_set store tag 1) tag = 1) ∧
    (py_lower s = "closed" →
      set_tag plc store tag (.str s) = .ok (plc_set store tag 0) ∧
      (plc_set store tag 0) tag = 0) ∧
    (py_lower s ≠ "open" → py_lower s ≠ "closed" →
      set_tag plc store tag (.str s) = .error (.invalidControlValue (.str s))) ∧
    (∀ n : Int, set_tag plc store tag (.num n) =
      .error (.invalidControlValue (.num n))) := by
  have hmem : tag ∈ plc.actuators := by simpa using hOwn
  refine ⟨fun hs => ?_, fun hs => ?_, fun hs hs' => ?_, fun n => rfl⟩
  · have hne : py_lower s ≠ "closed" := by rw [hs]; decide
    exact ⟨by simp [set_tag, hs, hne]; exact fun _ => hmem, by simp [plc_set]⟩
  · exact ⟨by simp [set_tag, hs]; exact fun _ => hmem, by simp [plc_set]⟩
  · simp [set_tag, hs, hs']

/-- Witness for `set_tag_symbolic_mapping`: evaluated on the concrete PLC
`plcA`, actuator `"PMP1"` and the string `"OpEn"`. -/
theorem set_tag_symbolic_mapping_witness :
    set_tag plcA store0 "PMP1" (.str "OpEn") = .ok (plc_set store0 "PMP1" 1) ∧
    (plc_set store0 "PMP1" 1) "PMP1" = 1 :=
  (set_tag_symbolic_mapping plcA store0 "PMP1" "OpEn" (by decide)).1 (by decide)

/-- C2 counterexample: for the tag `"X"` owned by nobody, `set_tag` with the
numeric value 0 fails with `InvalidControlValue`, not with `TagDoesNotExist`
as the claim states it does for every value: the value check precedes the
ownership check. -/
theorem set_tag_unowned_invalid_value :
    set_tag plcA store0 "X" (TagValue.num 0) =
      Except.error (PlcError.invalidControlValue (TagValue.num 0)) ∧
    set_tag plcA store0 "X" (TagValue.num 0) ≠
      Except.error (PlcError.tagDoesNotExist ("X cannot be set from PLC1")) := by
  exact ⟨rfl, by simp [set_tag]⟩

/-- C2 (amended): for a tag owned by neither list, `set_tag` fails with
`TagDoesNotExist` for every value that passes the value check (a string whose
lowercasing is `"open"` or `"closed"`); for every other value it fails with
`InvalidControlValue`, the value check coming first. -/
theorem set_tag_unowned_tag_spec (plc : PLCDescriptor) (store : String → Int)
    (tag : String) (s : String)
    (hNot : (plc.sensors.contains tag || plc.actuators.contains tag) = false) :
    (py_lower s = "open" ∨ py_lower s = "closed" →
      set_tag plc store tag (.str s) =
        .error (.tagDoesNotExist (tag ++ " cannot be set from " ++ plc.name))) ∧
    (py_lower s ≠ "open" → py_lower s ≠ "closed" →
      set_tag plc store tag (.str s) = .error (.invalidControlValue (.str s))) ∧
    (∀ n : Int, set_tag plc store tag (.num n) =
      .error (.invalidControlValue (.num n))) := by
  have hmem : ¬ tag ∈ plc.sensors ∧ ¬ tag ∈ plc.actuators := by simpa using hNot
  refine ⟨fun hs => ?_, fun hs hs' => ?_, fun n => rfl⟩
  · rcases hs with hs | hs
    · have hne : py_lower s ≠ "closed" := by rw [hs]; decide
      simp [set_tag, hs, hne, hmem.1, hmem.2]
    · simp [set_tag, hs, hmem.1, hmem.2]
  · simp [set_tag, hs, hs']

/-- Witness for `set_tag_unowned_tag_spec`: the unowned tag `"X"` with value
`"closed"` fails with `TagDoesNotExist`. -/
theorem set_tag_unowned_tag_spec_witness :
    set_tag plcA store0 "X" (.str "closed") =
      .error (.tagDoesNotExist ("X cannot be set from PLC1")) :=
  (set_tag_unowned_tag_spec plcA store0 "X" "closed" (by decide)).1 (Or.inr (by decide))

/-- Whether descriptor `p` declares `tag` as one of its sensors or actuators:
the membership test `tag in plc_data["sensors"] or tag in plc_data["actuators"]`
of generic_plc.py lines 238 and 244. -/
def declares_tag (p : PLCDescriptor) (tag : String) : Bool :=
  p.sensors.contains tag || p.actuators.contains tag

/-- The read action `get_tag` resolves to: a local `self.get((tag, 1))`, or
one network `self.receive((tag, 1), ip)` from the descriptor at `idx`. -/
inductive TagRead
  | localRead
  | remoteRead (idx : Nat) (ip : String)
deriving DecidableEq

/-- The `for i, plc_data in enumerate(self.intermediate_yaml["plcs"])` scan of
`GenericPLC.get_tag` (generic_plc.py lines 241-247): skip index
`self.yaml_index`, stop at the first descriptor declaring `tag`, and raise
`TagDoesNotExist(tag)` when the scan falls through. `i` is the index in the
full plcs list of the head of `l`. -/
def get_tag_scan (tag : String) (selfIdx : Nat) :
    List PLCDescriptor → Nat → Except PlcError TagRead
  | [], _ => .error (.tagDoesNotExist tag)
  | p :: rest, i =>
    if i = selfIdx then get_tag_scan tag selfIdx rest (i + 1)
    else if declares_tag p tag then .ok (.remoteRead i p.public_ip)
    else get_tag_scan tag selfIdx rest (i + 1)

/-- Control flow of `GenericPLC.get_tag` (lines 228-247): read locally when
`self.intermediate_plc` (that is, `plcs[selfIdx]`) declares the tag,
otherwise scan the whole topology from index 0. -/
def get_tag_resolve (plcs : List PLCDescriptor) (selfIdx : Nat) (tag : String) :
    Except PlcError TagRead :=
  if declares_tag (plcs.getD selfIdx default) tag then .ok .localRead
  else get_tag_scan tag selfIdx plcs 0

/-- The oracles of the underlying protocol layer: `self.get((tag, 1))` and
`self.receive((tag, 1), ip)`. -/
structure GetTagEnv where
  localGet : String → Int
  receive : String → String → Int

/-- The value `GenericPLC.get_tag` returns, given the protocol oracles. -/
def get_tag (env : GetTagEnv) (plcs : List PLCDescriptor) (selfIdx : Nat)
    (tag : String) : Except PlcError Int :=
  match get_tag_resolve plcs selfIdx tag with
  | .ok .localRead => .ok (env.localGet tag)
  | .ok (.remoteRead _ ip) => .ok (env.receive tag ip)
  | .error e => .error e

/-- How many network receives a resolved read performs: the remote branch of
`get_tag` calls `self.receive` exactly once; every other path calls it not at
all. -/
def receive_count : Except PlcError TagRead → Nat
  | .ok (.remoteRead _ _) => 1
  | _ => 0

lemma get_tag_scan_finds (tag : String) (selfIdx : Nat) (l : List PLCDescriptor) :
    ∀ (i j : Nat), j < l.length →
      i + j ≠ selfIdx → declares_tag (l.getD j default) tag = true →
      (∀ k, k < j → i + k ≠ selfIdx → declares_tag (l.getD k default) tag = false) →
      get_tag_scan tag selfIdx l i =
        .ok (.remoteRead (i + j) (l.getD j default).public_ip) := by
  induction l with
  | nil => intro i j hj _ _ _; simp at hj
  | cons p rest ih =>
    intro i j hj hne hdec hmin
    match j with
    | 0 =>
      simp only [Nat.add_zero] at hne
      simp only [List.getD_cons_zero] at hdec ⊢
      simp [get_tag_scan, hne, hdec]
    | j' + 1 =>
      simp only [List.getD_cons_succ] at hdec ⊢
      have harith : i + 1 + j' = i + (j' + 1) := by omega
      have hmin' : ∀ k, k < j' → i + 1 + k ≠ selfIdx →
          declares_tag (rest.getD k default) tag = false := by
        intro k hk hkne
        have := hmin (k + 1) (by omega) (by omega)
        simpa using this
      have hrest := ih (i + 1) j' (by simpa using hj) (by omega) hdec hmin'
      rw [harith] at hrest
      by_cases his : i = selfIdx
      · simpa [get_tag_scan, his] using hrest
      · have h0 : declares_tag p tag = false := by
          have := hmin 0 (by omega) (by simpa using his)
          simpa using this
        simpa [get_tag_scan, his, h0] using hrest

lemma get_tag_scan_none (tag : String) (selfIdx : Nat) (l : List PLCDescriptor) :
    ∀ i : Nat,
      (∀ k, k < l.length → i + k ≠ selfIdx →
        declares_tag (l.getD k default) tag = false) →
      get_tag_scan tag selfIdx l i = .error (.tagDoesNotExist tag) := by
  induction l with
  | nil => intro i _; simp [get_tag_scan]
  | cons p rest ih =>
    intro i hall
    have hrest := ih (i + 1) (fun k hk hkne => by
      have := hall (k + 1) (by simpa using hk) (by omega)
      simpa using this)
    by_cases his : i = selfIdx
    · simpa [get_tag_scan, his] using hrest
    · have h0 : declares_tag p tag = false := by
        have := hall 0 (by simp) (by simpa using his)
        simpa using this
      simpa [get_tag_scan, his, h0] using hrest

/-- C3: `get_tag` reads locally when the tag is in the PLC's own sensor or
actuator lists; otherwise it returns the value received over the network from
the first descriptor in topology order — the PLC's own index skipped — that
declares the tag, performing exactly one network receive; and when no other
descriptor declares the tag it fails with `TagDoesNotExist`. -/
theorem get_tag_resolution_spec (env : GetTagEnv) (plcs : List PLCDescriptor)
    (selfIdx : Nat) (tag : String) :
    (declares_tag (plcs.getD selfIdx default) tag = true →
      get_tag env plcs selfIdx tag = .ok (env.localGet tag) ∧
      receive_count (get_tag_resolve plcs selfIdx tag) = 0) ∧
    (declares_tag (plcs.getD selfIdx default) tag = false →
      ∀ j, j < plcs.length → j ≠ selfIdx →
        declares_tag (plcs.getD j default) tag = true →
        (∀ k, k < j → k ≠ selfIdx → declares_tag (plcs.getD k default) tag = false) →
        get_tag env plcs selfIdx tag =
          .ok (env.receive tag (plcs.getD j default).public_ip) ∧
        receive_count (get_tag_resolve plcs selfIdx tag) = 1) ∧
    (declares_tag (plcs.getD selfIdx default) tag = false →
      (∀ k, k < plcs.length → k ≠ selfIdx →
        declares_tag (plcs.getD k default) tag = false) →
      get_tag env plcs selfIdx tag = .error (.tagDoesNotExist tag)) := by
  refine ⟨fun hloc => ?_, fun hloc j hj hjne hjdec hjmin => ?_, fun hloc hnone => ?_⟩
  · have hres : get_tag_resolve plcs selfIdx tag = .ok .localRead := by
      unfold get_tag_resolve
      rw [if_pos hloc]
    exact ⟨by unfold get_tag; rw [hres], by rw [hres]; rfl⟩
  · have hscan := get_tag_scan_finds tag selfIdx plcs 0 j hj (by simpa using hjne)
      hjdec (fun k hk hkne => hjmin k hk (by simpa using hkne))
    simp only [Nat.zero_add] at hscan
    have hres : get_tag_resolve plcs selfIdx tag =
        .ok (.remoteRead j (plcs.getD j default).public_ip) := by
      unfold get_tag_resolve
      rw [if_neg (by rw [hloc]; decide)]
      exact hscan
    exact ⟨by unfold get_tag; rw [hres], by rw [hres]; rfl⟩
  · have hscan := get_tag_scan_none tag selfIdx plcs 0
      (fun k hk hkne => hnone k hk (by simpa using hkne))
    have hres : get_tag_resolve plcs selfIdx tag = .error (.tagDoesNotExist tag) := by
      unfold get_tag_resolve
      rw [if_neg (by rw [hloc]; decide)]
      exact hscan
    unfold get_tag
    rw [hres]

/-- A second and third concrete descriptor, and a three-PLC topology in which
`plcB` (index 1) is the local PLC and only `plcC` (index 2) declares `"T3"`. -/
def plcB : PLCDescriptor :=
  { name := "PLC2", sensors := ["T2"], actuators := ["PMP2"], public_ip := "10.0.1.2" }

def plcC : PLCDescriptor :=
  { name := "PLC3", sensors := ["T3"], actuators := ["V3"], public_ip := "10.0.1.3" }

def plcs3 : List PLCDescriptor := [plcA, plcB, plcC]

/-- Concrete protocol oracles: every local read yields 7, every receive 42. -/
def envC : GetTagEnv := { localGet := fun _ => 7, receive := fun _ _ => 42 }

/-- Witness for `get_tag_resolution_spec`: from `plcB` (index 1), reading
`"T3"` resolves to one network receive from `plcC` (index 2). -/
theorem get_tag_resolution_spec_witness :
    get_tag envC plcs3 1 "T3" =
      .ok (envC.receive "T3" (plcs3.getD 2 default).public_ip) ∧
    receive_count (get_tag_resolve plcs3 1 "T3") = 1 :=
  (get_tag_resolution_spec envC plcs3 1 "T3").2.1 (by decide) 2 (by decide)
    (by decide) (by decide) (by decide)

/-- Modelled from the spec: the rule classes of `entities/control.py` and
`entities/attack.py` are not under `src/`. Spec section 4.3 describes their
shared interface: each rule independently computes whether its trigger
condition holds against the tag values at the instant of evaluation and, if
it does, writes its prescribed action to its target actuator; a rule
evaluated later in the same iteration observes writes made by earlier rules.
A rule therefore carries a target actuator, an action value, and a trigger
predicate over the current store. -/
structure Rule where
  actuator : String
  action : Int
  triggered : (String → Int) → Bool

/-- Modelled from the spec: `rule.apply(self)` writes `action` to `actuator`
when the trigger holds and leaves the store unchanged otherwise. -/
def Rule.apply (r : Rule) (store : String → Int) : String → Int :=
  if r.triggered store then plc_set store r.actuator r.action else store

/-- Application of a list of rules in declaration order. -/
def apply_rules (rules : List Rule) (store : String → Int) : String → Int :=
  rules.foldl (fun st r => r.apply st) store

/-- The rule phase of one `GenericPLC.main_loop` iteration (generic_plc.py
lines 314-318): every Control in declaration order, then every Attack in
declaration order. -/
def main_loop_rules (controls attacks : List Rule) (store : String → Int) :
    String → Int :=
  apply_rules attacks (apply_rules controls store)

lemma apply_rules_append (l1 l2 : List Rule) (store : String → Int) :
    apply_rules (l1 ++ l2) store = apply_rules l2 (apply_rules l1 store) := by
  simp [apply_rules, List.foldl_append]

/-- C4: Controls run before Attacks inside one iteration. A triggered Attack
on actuator `a` placed last in the attack list decides `a`'s final value no
matter what any Control wrote; and with no attacks, of two triggered Controls
on the same actuator the later one in declaration order decides the value. -/
theorem rule_ordering_last_write_wins (k c1 c2 : Rule) (a : String)
    (store : String → Int) (hk : k.actuator = a) (_h1 : c1.actuator = a)
    (h2 : c2.actuator = a) :
    (∀ (controls attacks1 : List Rule),
      k.triggered (apply_rules attacks1 (apply_rules controls store)) = true →
      main_loop_rules controls (attacks1 ++ [k]) store a = k.action) ∧
    (c1.triggered store = true →
      c2.triggered (c1.apply store) = true →
      main_loop_rules [c1, c2] [] store a = c2.action) := by
  constructor
  · intro controls attacks1 htrig
    unfold main_loop_rules
    rw [apply_rules_append]
    have hstep : ∀ st : String → Int, k.triggered st = true →
        apply_rules [k] st = plc_set st k.actuator k.action := by
      intro st htr
      unfold apply_rules
      simp only [List.foldl_cons, List.foldl_nil]
      unfold Rule.apply
      rw [if_pos htr]
    rw [hstep _ htrig, hk]
    simp [plc_set]
  · intro h1t h2t
    have hc1 : c1.apply store = plc_set store c1.actuator c1.action := by
      unfold Rule.apply
      rw [if_pos h1t]
    rw [hc1] at h2t
    unfold main_loop_rules apply_rules
    simp only [List.foldl_cons, List.foldl_nil]
    show (Rule.apply c2 (Rule.apply c1 store)) a = c2.action
    rw [hc1]
    unfold Rule.apply
    rw [if_pos h2t, h2]
    simp [plc_set]

/-- A Control-style rule writing 5 to `"PMP1"`, always triggered. -/
def ruleCtrl : Rule := { actuator := "PMP1", action := 5, triggered := fun _ => true }

/-- A second Control-style rule writing 7 to `"PMP1"`, always triggered. -/
def ruleCtrl2 : Rule := { actuator := "PMP1", action := 7, triggered := fun _ => true }

/-- An Attack-style rule forcing `"PMP1"` to 9, always triggered. -/
def ruleAtk : Rule := { actuator := "PMP1", action := 9, triggered := fun _ => true }

/-- Witness for `rule_ordering_last_write_wins`: with the concrete rules, the
attack's 9 overrides the control's 5, and with two controls the later 7 wins. -/
theorem rule_ordering_last_write_wins_witness :
    main_loop_rules [ruleCtrl] [ruleAtk] store0 "PMP1" = 9 ∧
    main_loop_rules [ruleCtrl, ruleCtrl2] [] store0 "PMP1" = 7 :=
  ⟨(rule_ordering_last_write_wins ruleAtk ruleCtrl ruleCtrl2 "PMP1" store0 rfl rfl
      rfl).1 [ruleCtrl] [] rfl,
   (rule_ordering_last_write_wins ruleAtk ruleCtrl ruleCtrl2 "PMP1" store0 rfl rfl
      rfl).2 rfl rfl⟩

/-- The shared sqlite state: one `flag` row per PLC name in the `sync` table,
plus the singleton `master_time` row. -/
structure SyncDB where
  sync : String → Nat
  master_time : Nat

/-- `GenericPLC.get_master_clock` (generic_plc.py lines 270-279). -/
def get_master_clock (db : SyncDB) : Nat := db.master_time

/-- `GenericPLC.get_sync` (lines 281-289): `bool(flag)` of this PLC's own row. -/
def get_sync (db : SyncDB) (name : String) : Bool := db.sync name != 0

/-- `GenericPLC.set_sync` (lines 291-300): `UPDATE sync SET flag=? WHERE name
IS ?` with `int(flag)`, followed by an immediate `commit()`. Only rows whose
`name` column equals this PLC's name are updated. -/
def set_sync (db : SyncDB) (name : String) (flag : Bool) : SyncDB :=
  { db with
    sync := fun n => if n = name then (if flag then 1 else 0) else db.sync n }

/-- C7: `set_sync` sets this PLC's own flag to `int(flag)`, leaves every
other PLC's flag unchanged, and leaves `master_time` unchanged. The returned
state is the committed one: the model has no uncommitted intermediate. -/
theorem set_sync_frame_effect (db : SyncDB) (name : String) (flag : Bool) :
    (set_sync db name flag).sync name = (if flag then 1 else 0) ∧
    (∀ other, other ≠ name → (set_sync db name flag).sync other = db.sync other) ∧
    (set_sync db name flag).master_time = db.master_time := by
  refine ⟨by simp [set_sync], fun other hne => by simp [set_sync, hne], rfl⟩

/-- A concrete sync store: every flag 0, master clock at 3. -/
def syncDB0 : SyncDB := { sync := fun _ => 0, master_time := 3 }

/-- Witness for `set_sync_frame_effect` on `syncDB0` and name `"PLC1"`. -/
theorem set_sync_frame_effect_witness :
    (set_sync syncDB0 "PLC1" true).sync "PLC1" = 1 ∧
    (set_sync syncDB0 "PLC1" true).sync "PLC2" = syncDB0.sync "PLC2" ∧
    (set_sync syncDB0 "PLC1" true).master_time = syncDB0.master_time :=
  ⟨(set_sync_frame_effect syncDB0 "PLC1" true).1,
   (set_sync_frame_effect syncDB0 "PLC1" true).2.1 "PLC2" (by decide),
   (set_sync_frame_effect syncDB0 "PLC1" true).2.2⟩

/-- The polling loop `while self.get_sync(): time.sleep(0.01)` of
`GenericPLC.main_loop` (lines 311-312). `dbs k` is the database state
observed by poll number `k` (the physical-process simulator mutates the store
between polls; the 10 ms sleep is real time, outside the model). `fuel`
bounds how many polls are unrolled: `none` means the flag read 1 at every
unrolled poll and the loop is still spinning; `some n` means poll `n` read 0
and the loop returned. -/
def wait_for_release (dbs : Nat → SyncDB) (name : String) :
    Nat → Nat → Option Nat
  | fuel, k =>
    if get_sync (dbs k) name then
      match fuel with
      | 0 => none
      | f + 1 => wait_for_release dbs name f (k + 1)
    else some k

/-- One `GenericPLC.main_loop` iteration (lines 310-320) gated by the polling
loop: the rule phase runs only once `wait_for_release` has returned. -/
def main_loop_sync_iteration (dbs : Nat → SyncDB) (name : String) (fuel : Nat)
    (controls attacks : List Rule) (store : String → Int) :
    Option (String → Int) :=
  match wait_for_release dbs name fuel 0 with
  | none => none
  | some _ => some (main_loop_rules controls attacks store)

lemma wait_for_release_some (dbs : Nat → SyncDB) (name : String) :
    ∀ (fuel k n : Nat), wait_for_release dbs name fuel k = some n →
      k ≤ n ∧ get_sync (dbs n) name = false ∧
      ∀ m, k ≤ m → m < n → get_sync (dbs m) name = true := by
  intro fuel
  induction fuel with
  | zero =>
    intro k n h
    unfold wait_for_release at h
    by_cases hs : get_sync (dbs k) name = true
    · rw [if_pos hs] at h
      simp at h
    · rw [if_neg hs] at h
      obtain rfl : k = n := by simpa using h
      exact ⟨Nat.le_refl _, by simpa using hs,
        fun m hm hm' => absurd (Nat.lt_of_le_of_lt hm hm') (Nat.lt_irrefl _)⟩
  | succ f ih =>
    intro k n h
    unfold wait_for_release at h
    by_cases hs : get_sync (dbs k) name = true
    · rw [if_pos hs] at h
      obtain ⟨hkn, hflag, hall⟩ := ih (k + 1) n h
      refine ⟨by omega, hflag, fun m hm hm' => ?_⟩
      rcases Nat.eq_or_lt_of_le hm with rfl | hlt
      · exact hs
      · exact hall m (by omega) hm'
    · rw [if_neg hs] at h
      obtain rfl : k = n := by simpa using h
      exact ⟨Nat.le_refl _, by simpa using hs,
        fun m hm hm' => absurd (Nat.lt_of_le_of_lt hm hm') (Nat.lt_irrefl _)⟩

/-- C6: the wait-for-release step returns only at a poll that reads this
PLC's own sync flag as 0, every earlier poll having read 1; and while every
poll reads 1 the iteration applies no Control and no Attack. -/
theorem wait_for_release_spec (dbs : Nat → SyncDB) (name : String) (fuel : Nat)
    (controls attacks : List Rule) (store : String → Int) :
    (∀ n, wait_for_release dbs name fuel 0 = some n →
      get_sync (dbs n) name = false ∧
      ∀ m, m < n → get_sync (dbs m) name = true) ∧
    (wait_for_release dbs name fuel 0 = none →
      main_loop_sync_iteration dbs name fuel controls attacks store = none) := by
  constructor
  · intro n h
    obtain ⟨-, hflag, hall⟩ := wait_for_release_some dbs name fuel 0 n h
    exact ⟨hflag, fun m hm => hall m (Nat.zero_le m) hm⟩
  · intro h
    unfold main_loop_sync_iteration
    rw [h]

/-- A concrete trace: the flag of every PLC reads 1 at polls 0 and 1 and 0
from poll 2 on. -/
def dbsW : Nat → SyncDB :=
  fun k => { sync := fun _ => if k < 2 then 1 else 0, master_time := 0 }

/-- Witness for `wait_for_release_spec`: on the trace `dbsW` the loop returns
at poll 2, where the flag reads 0, poll 1 having read 1. -/
theorem wait_for_release_spec_witness :
    get_sync (dbsW 2) "PLC1" = false ∧ get_sync (dbsW 1) "PLC1" = true :=
  ⟨((wait_for_release_spec dbsW "PLC1" 10 [] [] store0).1 2 (by decide)).1,
   ((wait_for_release_spec dbsW "PLC1" 10 [] [] store0).1 2 (by decide)).2 1
     (by decide)⟩

/-- One entry of the `controls` list of the intermediate yaml, with the keys
`create_controls` reads: `type` is the discriminator string. -/
structure ControlDict where
  type : String
  actuator : String
  action : String
  dependant : String
  value : Int
deriving DecidableEq

/-- The Control classes instantiated by `create_controls` (imported from
`entities.control`); each variant carries exactly the fields the constructor
calls in generic_plc.py lines 159-169 pass. -/
inductive Control
  | AboveControl (actuator action dependant : String) (value : Int)
  | BelowControl (actuator action dependant : String) (value : Int)
  | TimeControl (actuator action : String) (value : Int)
deriving DecidableEq

/-- The loop body of `GenericPLC.create_controls` (lines 157-170): three
independent `if` tests on `control["type"].lower()`, each appending the
corresponding Control instance to `ret`. -/
def create_controls_step (ret : List Control) (control : ControlDict) :
    List Control :=
  let ret := if py_lower control.type = "above" then
    ret ++ [Control.AboveControl control.actuator control.action
      control.dependant control.value] else ret
  let ret := if py_lower control.type = "below" then
    ret ++ [Control.BelowControl control.actuator control.action
      control.dependant control.value] else ret
  let ret := if py_lower control.type = "time" then
    ret ++ [Control.TimeControl control.actuator control.action
      control.value] else ret
  ret

/-- `GenericPLC.create_controls` (generic_plc.py lines 149-171). -/
def create_controls (controls_list : List ControlDict) : List Control :=
  controls_list.foldl create_controls_step []

/-- One entry of the `attacks` list of the intermediate yaml, with the keys
`create_attacks` reads. -/
structure AttackDict where
  type : String
  name : String
  actuators : List String
  command : String
  start : Int
  end_ : Int
  sensor : String
  value : Int
  lower_value : Int
  upper_value : Int
deriving DecidableEq

/-- The DeviceAttack classes instantiated by `create_attacks` (imported from
`entities.attack`); each variant carries exactly the fields the constructor
calls in generic_plc.py lines 181-195 pass. -/
inductive DeviceAttack
  | TimeAttack (name : String) (actuators : List String) (command : String)
      (start end_ : Int)
  | TriggerAboveAttack (name : String) (actuators : List String)
      (command sensor : String) (value : Int)
  | TriggerBelowAttack (name : String) (actuators : List String)
      (command sensor : String) (value : Int)
  | TriggerBetweenAttack (name : String) (actuators : List String)
      (command sensor : String) (lower_value upper_value : Int)
deriving DecidableEq

/-- The loop body of `GenericPLC.create_attacks` (lines 180-195): an
`if`/`elif` chain on `attack['type'].lower()` with no `else`. -/
def create_attacks_step (attacks : List DeviceAttack) (attack : AttackDict) :
    List DeviceAttack :=
  if py_lower attack.type = "time" then
    attacks ++ [DeviceAttack.TimeAttack attack.name attack.actuators
      attack.command attack.start attack.end_]
  else if py_lower attack.type = "above" then
    attacks ++ [DeviceAttack.TriggerAboveAttack attack.name attack.actuators
      attack.command attack.sensor attack.value]
  else if py_lower attack.type = "below" then
    attacks ++ [DeviceAttack.TriggerBelowAttack attack.name attack.actuators
      attack.command attack.sensor attack.value]
  else if py_lower attack.type = "between" then
    attacks ++ [DeviceAttack.TriggerBetweenAttack attack.name attack.actuators
      attack.command attack.sensor attack.lower_value attack.upper_value]
  else attacks

/-- `GenericPLC.create_attacks` (generic_plc.py lines 173-196). -/
def create_attacks (attack_list : List AttackDict) : List DeviceAttack :=
  attack_list.foldl create_attacks_step []

/-- The per-entry outcome of `create_controls`: the Control built for a
recognized type, `none` for an unrecognized one. -/
def control_of_dict (control : ControlDict) : Option Control :=
  if py_lower control.type = "above" then
    some (.AboveControl control.actuator control.action control.dependant
      control.value)
  else if py_lower control.type = "below" then
    some (.BelowControl control.actuator control.action control.dependant
      control.value)
  else if py_lower control.type = "time" then
    some (.TimeControl control.actuator control.action control.value)
  else none

/-- The per-entry outcome of `create_attacks`: the DeviceAttack built for a
recognized type, `none` for an unrecognized one. -/
def attack_of_dict (attack : AttackDict) : Option DeviceAttack :=
  if py_lower attack.type = "time" then
    some (.TimeAttack attack.name attack.actuators attack.command attack.start
      attack.end_)
  else if py_lower attack.type = "above" then
    some (.TriggerAboveAttack attack.name attack.actuators attack.command
      attack.sensor attack.value)
  else if py_lower attack.type = "below" then
    some (.TriggerBelowAttack attack.name attack.actuators attack.command
      attack.sensor attack.value)
  else if py_lower attack.type = "between" then
    some (.TriggerBetweenAttack attack.name attack.actuators attack.command
      attack.sensor attack.lower_value attack.upper_value)
  else none

lemma create_controls_step_eq (acc : List Control) (c : ControlDict) :
    create_controls_step acc c = acc ++ (control_of_dict c).toList := by
  unfold create_controls_step control_of_dict
  split_ifs <;> simp_all

lemma create_attacks_step_eq (acc : List DeviceAttack) (a : AttackDict) :
    create_attacks_step acc a = acc ++ (attack_of_dict a).toList := by
  unfold create_attacks_step attack_of_dict
  split_ifs <;> simp_all

lemma create_controls_foldl (cs : List ControlDict) :
    ∀ acc : List Control,
      cs.foldl create_controls_step acc = acc ++ cs.filterMap control_of_dict := by
  induction cs with
  | nil => intro acc; simp
  | cons c rest ih =>
    intro acc
    rw [List.foldl_cons, create_controls_step_eq, ih]
    cases h : control_of_dict c with
    | none => simp [List.filterMap_cons, h]
    | some b => simp [List.filterMap_cons, h]

lemma create_attacks_foldl (al : List AttackDict) :
    ∀ acc : List DeviceAttack,
      al.foldl create_attacks_step acc = acc ++ al.filterMap attack_of_dict := by
  induction al with
  | nil => intro acc; simp
  | cons a rest ih =>
    intro acc
    rw [List.foldl_cons, create_attacks_step_eq, ih]
    cases h : attack_of_dict a with
    | none => simp [List.filterMap_cons, h]
    | some b => simp [List.filterMap_cons, h]

/-- C10: `create_controls` and `create_attacks` keep exactly the entries
whose lowercased type is recognized, as rule objects in input order, and an
entry with an unrecognized type produces no rule object at all — it is
silently dropped, not rejected. -/
theorem create_rules_drop_unrecognized (cs : List ControlDict)
    (al : List AttackDict) :
    create_controls cs = cs.filterMap control_of_dict ∧
    create_attacks al = al.filterMap attack_of_dict ∧
    (∀ c : ControlDict, py_lower c.type ≠ "above" → py_lower c.type ≠ "below" →
      py_lower c.type ≠ "time" → control_of_dict c = none) ∧
    (∀ a : AttackDict, py_lower a.type ≠ "time" → py_lower a.type ≠ "above" →
      py_lower a.type ≠ "below" → py_lower a.type ≠ "between" →
      attack_of_dict a = none) := by
  refine ⟨?_, ?_, fun c h1 h2 h3 => ?_, fun a h1 h2 h3 h4 => ?_⟩
  · simpa [create_controls] using create_controls_foldl cs []
  · simpa [create_attacks] using create_attacks_foldl al []
  · simp [control_of_dict, h1, h2, h3]
  · simp [attack_of_dict, h1, h2, h3, h4]

/-- A recognized control entry (mixed-case type), an unrecognized one, and a
recognized attack entry, to evaluate the rule constructors on. -/
def cdAbove : ControlDict :=
  { type := "Above", actuator := "PMP1", action := "open", dependant := "T1",
    value := 4 }

def cdBogus : ControlDict :=
  { type := "weird", actuator := "PMP1", action := "open", dependant := "T1",
    value := 4 }

def adTime : AttackDict :=
  { type := "Time", name := "atk1", actuators := ["PMP1"], command := "closed",
    start := 5, end_ := 10, sensor := "T1", value := 0, lower_value := 0,
    upper_value := 0 }

/-- Witness for `create_rules_drop_unrecognized`: on a two-entry control list
the bogus entry is dropped, and on a one-entry attack list the time attack is
kept. -/
theorem create_rules_drop_unrecognized_witness :
    create_controls [cdAbove, cdBogus] =
      List.filterMap control_of_dict [cdAbove, cdBogus] ∧
    control_of_dict cdBogus = none ∧
    create_attacks [adTime] = List.filterMap attack_of_dict [adTime] :=
  ⟨(create_rules_drop_unrecognized [cdAbove, cdBogus] [adTime]).1,
   (create_rules_drop_unrecognized [] []).2.2.1 cdBogus (by decide) (by decide)
     (by decide),
   (create_rules_drop_unrecognized [cdAbove, cdBogus] [adTime]).2.1⟩

/-- The fixed output location of `PLC2.write_output` (plc2.py line 36). -/
def plc2_output_path : String := "output/plc2_saved_tank_levels_received.csv"

/-- One row of `self.saved_tank_levels`: the header placed by `pre_loop`
(plc2.py line 47), or one `[local_time, timestamp, value]` entry appended per
completed iteration (line 72). Timestamps (`datetime.now()`) are opaque
strings supplied by the input trace. -/
inductive Row
  | header (c1 c2 c3 : String)
  | entry (iteration : Nat) (timestamp : String) (value : Int)
deriving DecidableEq

/-- Outcome of one `self.get(T1)` read in `PLC2.main_loop`: a value together
with the timestamp the iteration would record, or an exception. -/
inductive ReadOutcome
  | ok (timestamp : String) (v : Int)
  | err
deriving DecidableEq

/-- The `PLC2` process state the claims mention. `aborted` records that the
error-ceiling path printed its aborting message and called `exit(0)`;
`output` is the content of the csv artifact once `write_output` ran (`none`
while the file has not been written); `exited` records that the process
terminated (by either path). -/
structure PLC2State where
  get_error_counter : Nat
  local_time : Nat
  saved_tank_levels : List Row
  t1 : Int
  aborted : Bool
  output : Option (List Row)
  exited : Bool
deriving DecidableEq

/-- The retry ceiling `get_error_counter_limit = 100` (plc2.py line 59). -/
def get_error_counter_limit : Nat := 100

/-- State after `PLC2.pre_loop` (plc2.py lines 40-55) and the counter
initialisation at the top of `main_loop`: `local_time = 0`, the header row
seeded, the signal handlers registered, `t1` seeded by one read outside the
retry loop. -/
def plc2_pre_loop (t1init : Int) : PLC2State :=
  { get_error_counter := 0, local_time := 0,
    saved_tank_levels := [Row.header "iteration" "timestamp" "T1"],
    t1 := t1init, aborted := false, output := none, exited := false }

/-- `PLC2.main_loop` (plc2.py lines 57-75) run over a finite trace of read
outcomes. On an exception the counter is incremented; while the incremented
counter stays below the limit the loop `continue`s to the next read, and once
it reaches the limit the process prints the aborting message and exits at
once — the remaining trace is never read and the output artifact is never
written. On a successful read (performed holding `self.lock`) the iteration
counter advances, a row is appended, and the error counter resets to 0. -/
def plc2_main_loop : List ReadOutcome → PLC2State → PLC2State
  | [], s => s
  | .err :: rest, s =>
    if s.get_error_counter + 1 < get_error_counter_limit then
      plc2_main_loop rest { s with get_error_counter := s.get_error_counter + 1 }
    else
      { s with get_error_counter := s.get_error_counter + 1,
               aborted := true, exited := true }
  | .ok ts v :: rest, s =>
    plc2_main_loop rest
      { s with t1 := v, local_time := s.local_time + 1,
               saved_tank_levels := s.saved_tank_levels ++
                 [Row.entry (s.local_time + 1) ts v],
               get_error_counter := 0 }

/-- C5: one failure followed by one success leaves the error counter at 0;
exactly 100 consecutive failures print the aborting message and terminate the
process without writing the output artifact; 99 consecutive failures followed
by a success neither abort nor leave a nonzero counter. -/
theorem plc2_retry_policy (ts : String) (v : Int) (t1init : Int) :
    ((plc2_main_loop [ReadOutcome.err, ReadOutcome.ok ts v]
        (plc2_pre_loop t1init)).get_error_counter = 0 ∧
     (plc2_main_loop [ReadOutcome.err, ReadOutcome.ok ts v]
        (plc2_pre_loop t1init)).aborted = false) ∧
    ((plc2_main_loop (List.replicate 100 ReadOutcome.err)
        (plc2_pre_loop t1init)).aborted = true ∧
     (plc2_main_loop (List.replicate 100 ReadOutcome.err)
        (plc2_pre_loop t1init)).exited = true ∧
     (plc2_main_loop (List.replicate 100 ReadOutcome.err)
        (plc2_pre_loop t1init)).output = none) ∧
    ((plc2_main_loop (List.replicate 99 ReadOutcome.err ++ [ReadOutcome.ok ts v])
        (plc2_pre_loop t1init)).aborted = false ∧
     (plc2_main_loop (List.replicate 99 ReadOutcome.err ++ [ReadOutcome.ok ts v])
        (plc2_pre_loop t1init)).get_error_counter = 0) := by
  exact ⟨⟨rfl, rfl⟩, ⟨rfl, rfl, rfl⟩, rfl, rfl⟩

/-- Witness for `plc2_retry_policy` at a concrete timestamp and value. -/
theorem plc2_retry_policy_witness :
    (plc2_main_loop [ReadOutcome.err, ReadOutcome.ok "09:00" 3]
        (plc2_pre_loop 0)).get_error_counter = 0 :=
  (plc2_retry_policy "09:00" 3 0).1.1

/-- `PLC2.sigint_handler` (plc2.py lines 30-32), registered for both SIGINT
and SIGTERM in `pre_loop` (lines 49-50): runs `write_output` — which writes
every row of `self.saved_tank_levels` to the fixed csv file — and then exits
via `sys.exit(0)`. -/
def sigint_handler (s : PLC2State) : PLC2State :=
  { s with output := some s.saved_tank_levels, exited := true }

/-- The `(iteration, timestamp, value)` rows a run of successful reads `oks`
accumulates, iterations numbered from `i`. -/
def entry_rows : Nat → List (String × Int) → List Row
  | _, [] => []
  | i, (ts, v) :: rest => Row.entry i ts v :: entry_rows (i + 1) rest

lemma plc2_saved_after (oks : List (String × Int)) :
    ∀ s : PLC2State,
      (plc2_main_loop (oks.map fun p => ReadOutcome.ok p.1 p.2) s).saved_tank_levels
        = s.saved_tank_levels ++ entry_rows (s.local_time + 1) oks := by
  induction oks with
  | nil => intro s; simp [plc2_main_loop, entry_rows]
  | cons p rest ih =>
    intro s
    simp only [List.map_cons, plc2_main_loop, entry_rows]
    rw [ih]
    simp

/-- C8: on SIGINT or SIGTERM after `oks.length` completed iterations, the
process persists the header row followed by one `(iteration, timestamp,
value)` row per completed iteration to the fixed output location, and exits. -/
theorem sigint_persists_telemetry (t1init : Int) (oks : List (String × Int)) :
    (sigint_handler (plc2_main_loop (oks.map fun p => ReadOutcome.ok p.1 p.2)
        (plc2_pre_loop t1init))).output =
      some (Row.header "iteration" "timestamp" "T1" :: entry_rows 1 oks) ∧
    (sigint_handler (plc2_main_loop (oks.map fun p => ReadOutcome.ok p.1 p.2)
        (plc2_pre_loop t1init))).exited = true ∧
    plc2_output_path = "output/plc2_saved_tank_levels_received.csv" := by
  refine ⟨?_, rfl, rfl⟩
  show some (plc2_main_loop _ _).saved_tank_levels = _
  rw [plc2_saved_after]
  rfl

/-- Witness for `sigint_persists_telemetry`: one completed iteration, then
the signal: the artifact holds the header and the single row. -/
theorem sigint_persists_telemetry_witness :
    (sigint_handler (plc2_main_loop ([("09:01", 5)].map
        fun p => ReadOutcome.ok p.1 p.2) (plc2_pre_loop 0))).output =
      some [Row.header "iteration" "timestamp" "T1", Row.entry 1 "09:01" 5] :=
  (sigint_persists_telemetry 0 [("09:01", 5)]).1

/-- The thread performing an access to the shared `self.t1` snapshot of
`PLC2` while both threads are alive. -/
inductive Accessor
  | mainLoop
  | broadcastThread
deriving DecidableEq

/-- One syntactic access to `self.t1` in plc2.py during the concurrent phase,
with whether it happens inside a `with self.lock:` block and whether it
writes. -/
structure T1Access where
  accessor : Accessor
  under_lock : Bool
  is_write : Bool
deriving DecidableEq

/-- The accesses to `self.t1` made while the broadcast thread runs:
`send_system_state` line 28 — `self.send(T1, self.t1, ENIP_LISTEN_PLC_ADDR)`,
a read with no lock acquisition anywhere in the method — and `main_loop`
lines 62-63 — `with self.lock: self.t1 = Decimal(self.get(T1))`, a write
under the lock. -/
def plc2_t1_accesses : List T1Access :=
  [ { accessor := .broadcastThread, under_lock := false, is_write := false },
    { accessor := .mainLoop, under_lock := true, is_write := true } ]

/-- C9 fails on the code: not every access to the shared snapshot is guarded
by the lock. The broadcast thread's read in `send_system_state` takes place
outside any `with self.lock:` block, while the main loop's write is the only
guarded access — so the single lock guards the writer alone and provides no
mutual exclusion against the publishing read. -/
theorem plc2_broadcast_read_unguarded :
    ¬ (∀ a ∈ plc2_t1_accesses, a.under_lock = true) ∧
    (T1Access.mk Accessor.broadcastThread false false) ∈ plc2_t1_accesses ∧
    (∀ a ∈ plc2_t1_accesses, a.accessor = Accessor.mainLoop →
      a.under_lock = true) := by
  decide
